import Mathlib

/-!
Verification of the caching reverse-proxy server of this repository
(the Express server in `src/unnamed/part_000`).

The shallow embedding below translates, from the source:
  * the in-memory cache (`const cache = new Map()` plus `CACHE_DURATION`),
  * `cacheMiddleware` (lines 17-33), including its monkey-patching of
    `res.json` so that every body written during a miss exchange is stored,
  * `createClient` (lines 36-45),
  * the `GET /api/league/:leagueId/info` handler (lines 50-71),
  * the `GET /api/health` endpoint (lines 214-216),
  * the `POST /api/cache/clear` endpoint (lines 219-222).

Times are naturals (milliseconds, as returned by `Date.now()`); the clock
value at the middleware freshness check and the clock value at the moment
the patched `res.json` runs are separate parameters, since the source calls
`Date.now()` at both places and upstream latency may separate them.
The upstream client method is a parameter (an oracle): its result for a
given client configuration and parameters is an `Except`, `.error msg`
standing for a raised error with `error.message = msg`.
-/

/-- JSON payloads that can appear as response bodies in the server:
an opaque upstream payload (indexed by a natural), the `{error}` object of a
400 validation response, the `{error, message}` object of a 500 upstream
failure, the `{status, timestamp}` health object, and the `{message}` object
returned by the cache-clear endpoint. -/
inductive Payload where
  | data : Nat → Payload
  | errorMsg : String → Payload
  | errorWith : String → String → Payload
  | healthObj : String → Nat → Payload
  | msgObj : String → Payload
deriving DecidableEq

/-- One stored cache value: `{ data: body, timestamp: Date.now() }`
(line 28 of the server). -/
structure CacheEntry where
  data : Payload
  timestamp : Nat
deriving DecidableEq

/-- The in-memory cache `const cache = new Map()` (line 13), modelled as an
association list from keys (`req.originalUrl` strings) to entries. -/
abbrev Cache := List (String × CacheEntry)

/-- `cache.get(key)`: first entry whose key matches, if any. -/
def Cache.get (c : Cache) (k : String) : Option CacheEntry :=
  match c with
  | [] => none
  | (k1, e) :: rest => if k1 = k then some e else Cache.get rest k

/-- `cache.set(key, entry)`: replaces the entry for `k` if present
(JavaScript `Map.set` overwrites in place), otherwise appends. -/
def Cache.set (c : Cache) (k : String) (e : CacheEntry) : Cache :=
  match c with
  | [] => [(k, e)]
  | (k1, e1) :: rest => if k1 = k then (k, e) :: rest else (k1, e1) :: Cache.set rest k e

/-- `cache.clear()`: drops every entry (line 220). -/
def Cache.clear (_ : Cache) : Cache := []

/-- `CACHE_DURATION = 10 * 60 * 1000` milliseconds (line 14). -/
def CACHE_DURATION : Nat := 10 * 60 * 1000

/-- JavaScript truthiness of a possibly-absent string value (`undefined` or
the empty string are falsy): used for `if (espnS2 && SWID)` and for the
`if (!seasonId)` validation checks. -/
def truthy : Option String → Bool
  | none => false
  | some s => s ≠ ""

/-- Leading decimal digits of a character list. -/
def leadingDigits : List Char → List Char
  | [] => []
  | c :: cs => if c.isDigit then c :: leadingDigits cs else []

/-- Value of a list of decimal digits. -/
def digitsToNat (cs : List Char) : Nat :=
  cs.foldl (fun acc c => acc * 10 + (c.toNat - 48)) 0

/-- JavaScript `parseInt(s)` in base 10: skip leading whitespace, optional
sign, then the longest prefix of digits; `none` models `NaN`. -/
def parseIntJS (s : String) : Option Int :=
  let cs := s.toList.dropWhile (fun c => c = ' ' || c = '\t' || c = '\n' || c = '\r')
  let signed : Bool × List Char :=
    match cs with
    | '-' :: r => (true, r)
    | '+' :: r => (false, r)
    | r => (false, r)
  let ds := leadingDigits signed.2
  if ds.isEmpty then none
  else if signed.1 then some (-(digitsToNat ds : Int)) else some (digitsToNat ds : Int)

/-- The configuration object built by `createClient`: `{ leagueId }` with the
two cookie tokens added only when both are truthy; `leagueId` is
`parseInt(leagueId)` with `none` for `NaN`. -/
structure ClientConfig where
  leagueId : Option Int
  espnS2 : Option String := none
  SWID : Option String := none
deriving DecidableEq

/-- `createClient(leagueId, espnS2, SWID)` (lines 36-45): the credentials are
copied into the config only when `espnS2 && SWID` is truthy. -/
def createClient (leagueId : String) (espnS2 SWID : Option String) : ClientConfig :=
  let config : ClientConfig := { leagueId := parseIntJS leagueId }
  if truthy espnS2 && truthy SWID then
    { config with espnS2 := espnS2, SWID := SWID }
  else config

/-- An inbound request as the middleware and handlers see it: Express has
already parsed `originalUrl` (path plus query string, the cache key source),
the path parameter, the query parameters, and the two credential headers. -/
structure Request where
  originalUrl : String
  leagueId : String
  seasonId : Option String := none
  scoringPeriodId : Option String := none
  matchupPeriodId : Option String := none
  espnS2 : Option String := none
  SWID : Option String := none
deriving DecidableEq

/-- Outcome of one request/response exchange: the HTTP status and body sent
to the client, the cache contents afterwards, whether the middleware called
`next()` (the wrapped handler ran), and whether the upstream client method
was invoked. -/
structure ExchangeResult where
  status : Nat
  body : Payload
  cache : Cache
  handlerRan : Bool
  upstreamInvoked : Bool
deriving DecidableEq

/-- The miss path of the middleware (lines 26-31): `res.json` is replaced so
that the body the handler writes is stored under `key` with
`timestamp = Date.now()` (the clock at send time) and then forwarded
unchanged via the saved `res.sendResponse`.  The handler result is
`(status, body, upstreamInvoked)`: every handler body, including the
`res.status(400).json(...)` and `res.status(500).json(...)` bodies, goes
through the patched `res.json`. -/
def runWrapped (tSend : Nat) (key : String) (cache : Cache)
    (handler : Unit → Nat × Payload × Bool) : ExchangeResult :=
  let r := handler ()
  { status := r.1, body := r.2.1,
    cache := Cache.set cache key ⟨r.2.1, tSend⟩,
    handlerRan := true, upstreamInvoked := r.2.2 }

/-- `cacheMiddleware(duration)` applied to one exchange (lines 17-33):
`key = req.originalUrl`; if an entry exists and
`Date.now() - cached.timestamp < duration`, respond immediately with
`cached.data` (status 200, the default) and never call `next()`; otherwise
patch `res.json` and run the handler. -/
def cacheMiddleware (duration tCheck tSend : Nat) (key : String)
    (cache : Cache) (handler : Unit → Nat × Payload × Bool) : ExchangeResult :=
  match Cache.get cache key with
  | some cached =>
      if tCheck - cached.timestamp < duration then
        { status := 200, body := cached.data, cache := cache,
          handlerRan := false, upstreamInvoked := false }
      else runWrapped tSend key cache handler
  | none => runWrapped tSend key cache handler

/-- The `GET /api/league/:leagueId/info` handler body (lines 50-71), given
the upstream `client.getLeagueInfo` as an oracle from the client config and
the parsed `seasonId`: missing `seasonId` gives the fixed 400 body without
touching the upstream; an upstream error gives the 500 body carrying the
error message; otherwise the upstream payload is written with status 200.
The third component records whether the upstream client was invoked. -/
def runInfoHandler (getLeagueInfo : ClientConfig → Option Int → Except String Payload)
    (req : Request) : Nat × Payload × Bool :=
  if !truthy req.seasonId then
    (400, Payload.errorMsg "seasonId query parameter is required", false)
  else
    let client := createClient req.leagueId req.espnS2 req.SWID
    match getLeagueInfo client (parseIntJS (req.seasonId.getD "")) with
    | Except.ok leagueInfo => (200, leagueInfo, true)
    | Except.error msg =>
        (500, Payload.errorWith "Failed to fetch league information" msg, true)

/-- One full exchange on `GET /api/league/:leagueId/info`: the route is
`cacheMiddleware(CACHE_DURATION)` in front of the handler (line 50), with
`duration` kept as a parameter exactly as in `cacheMiddleware(duration)`. -/
def processInfo (duration tCheck tSend : Nat)
    (getLeagueInfo : ClientConfig → Option Int → Except String Payload)
    (cache : Cache) (req : Request) : ExchangeResult :=
  cacheMiddleware duration tCheck tSend req.originalUrl cache
    (fun _ => runInfoHandler getLeagueInfo req)

/-- `GET /api/health` (lines 214-216): always responds 200 with
`{status: 'ok', timestamp: <current time>}`; not wrapped in the cache
middleware, so the cache passes through untouched and no client is built. -/
def healthEndpoint (now : Nat) (cache : Cache) : ExchangeResult :=
  { status := 200, body := Payload.healthObj "ok" now, cache := cache,
    handlerRan := true, upstreamInvoked := false }

/-- `POST /api/cache/clear` (lines 219-222): `cache.clear()` then respond
200 with `{message: 'Cache cleared successfully'}`; no conditions, no
authorization check. -/
def clearCacheEndpoint (cache : Cache) : ExchangeResult :=
  { status := 200, body := Payload.msgObj "Cache cleared successfully",
    cache := Cache.clear cache, handlerRan := true, upstreamInvoked := false }

/-! Concrete fixtures used by closed theorems and witnesses. -/

/-- A request to the info route with `seasonId` supplied. -/
def reqInfo : Request :=
  { originalUrl := "/api/league/1/info?seasonId=2024",
    leagueId := "1", seasonId := some "2024" }

/-- A request to the info route missing the required `seasonId`. -/
def reqNoSeason : Request :=
  { originalUrl := "/api/league/1/info", leagueId := "1" }

/-- An upstream oracle that always succeeds with an opaque payload. -/
def upstreamOk : ClientConfig → Option Int → Except String Payload :=
  fun _ _ => Except.ok (Payload.data 42)

/-- An upstream oracle that always raises, with message `boom`. -/
def upstreamFail : ClientConfig → Option Int → Except String Payload :=
  fun _ _ => Except.error "boom"

/-- A sample wrapped handler for middleware-level witnesses. -/
def handlerW : Unit → Nat × Payload × Bool := fun _ => (200, Payload.data 99, true)

/-- A sample one-entry cache for middleware-level witnesses. -/
def cacheW : Cache := [("k", ⟨Payload.data 7, 5⟩)]

/-! Theorems. -/

/-- Replacement semantics of the store: after `set`, `get` on the same key
returns exactly the new entry, whatever was there before. -/
theorem Cache.get_set_self (c : Cache) (k : String) (e : CacheEntry) :
    Cache.get (Cache.set c k e) k = some e := by
  induction c with
  | nil => simp [Cache.set, Cache.get]
  | cons hd tl ih =>
      by_cases h : hd.1 = k
      · simp [Cache.set, Cache.get, h]
      · simp [Cache.set, Cache.get, h, ih]

/-- Claim C1: the claim states that a failed wrapped operation writes
nothing to the cache and the next request for the key is a fresh miss.  The
code does the opposite: `res.json` is patched before the handler runs, so
the 500 body of an upstream failure is stored under the key, and a request
for the same key within the TTL is served that error body from the cache
with status 200, without running the handler at all.  This theorem
evaluates the code at the failing input: empty cache, upstream raising
`boom` at time 0, then the same request again (with the upstream healthy)
at time 5ms. -/
theorem c1_failed_fetch_is_cached :
    (processInfo CACHE_DURATION 0 0 upstreamFail [] reqInfo).status = 500 ∧
    Cache.get (processInfo CACHE_DURATION 0 0 upstreamFail [] reqInfo).cache
        reqInfo.originalUrl =
      some ⟨Payload.errorWith "Failed to fetch league information" "boom", 0⟩ ∧
    (processInfo CACHE_DURATION 5 5 upstreamOk
        (processInfo CACHE_DURATION 0 0 upstreamFail [] reqInfo).cache
        reqInfo).handlerRan = false ∧
    (processInfo CACHE_DURATION 5 5 upstreamOk
        (processInfo CACHE_DURATION 0 0 upstreamFail [] reqInfo).cache
        reqInfo).status = 200 ∧
    (processInfo CACHE_DURATION 5 5 upstreamOk
        (processInfo CACHE_DURATION 0 0 upstreamFail [] reqInfo).cache
        reqInfo).body =
      Payload.errorWith "Failed to fetch league information" "boom" := by
  decide

/-- Claim C2: the claim states that a request missing a required query
parameter gets a 400 with a fixed message, never reaches the upstream, and
writes nothing to the cache.  The first two parts hold, but the patched
`res.json` stores the 400 body under the key all the same.  This theorem
evaluates the code at the failing input: empty cache, a request without
`seasonId`, at time 0. -/
theorem c2_validation_error_is_cached :
    (processInfo CACHE_DURATION 0 0 upstreamOk [] reqNoSeason).status = 400 ∧
    (processInfo CACHE_DURATION 0 0 upstreamOk [] reqNoSeason).body =
      Payload.errorMsg "seasonId query parameter is required" ∧
    (processInfo CACHE_DURATION 0 0 upstreamOk [] reqNoSeason).upstreamInvoked = false ∧
    Cache.get (processInfo CACHE_DURATION 0 0 upstreamOk [] reqNoSeason).cache
        reqNoSeason.originalUrl =
      some ⟨Payload.errorMsg "seasonId query parameter is required", 0⟩ := by
  decide

/-- Claim C3: if the store holds `⟨p, t⟩` for key `k` and the request for
`k` arrives at a time `tCheck` with `tCheck - t < duration`, the middleware
responds with exactly the stored payload `p` and neither the wrapped
handler nor the upstream runs during that exchange. -/
theorem c3_fresh_hit_returns_stored_payload
    (duration tCheck tSend t : Nat) (key : String) (cache : Cache)
    (handler : Unit → Nat × Payload × Bool) (p : Payload)
    (hGet : Cache.get cache key = some ⟨p, t⟩)
    (hFresh : tCheck - t < duration) :
    (cacheMiddleware duration tCheck tSend key cache handler).body = p ∧
    (cacheMiddleware duration tCheck tSend key cache handler).handlerRan = false ∧
    (cacheMiddleware duration tCheck tSend key cache handler).upstreamInvoked = false := by
  simp [cacheMiddleware, hGet, hFresh]

/-- Witness for C3 at a concrete fresh hit. -/
theorem c3_fresh_hit_returns_stored_payload_witness :
    Cache.get cacheW "k" = some ⟨Payload.data 7, 5⟩ ∧ 10 - 5 < 600000 ∧
    ((cacheMiddleware 600000 10 10 "k" cacheW handlerW).body = Payload.data 7 ∧
     (cacheMiddleware 600000 10 10 "k" cacheW handlerW).handlerRan = false ∧
     (cacheMiddleware 600000 10 10 "k" cacheW handlerW).upstreamInvoked = false) :=
  ⟨by decide, by decide,
   c3_fresh_hit_returns_stored_payload 600000 10 10 5 "k" cacheW handlerW
     (Payload.data 7) (by decide) (by decide)⟩

/-- Claim C4: when the store has no entry for the key, or the entry is
stale (`duration ≤ tCheck - timestamp`), the middleware does not
short-circuit: `next()` is called and the wrapped handler runs again. -/
theorem c4_miss_or_stale_runs_handler
    (duration tCheck tSend : Nat) (key : String) (cache : Cache)
    (handler : Unit → Nat × Payload × Bool)
    (h : Cache.get cache key = none ∨
         ∃ e, Cache.get cache key = some e ∧ duration ≤ tCheck - e.timestamp) :
    (cacheMiddleware duration tCheck tSend key cache handler).handlerRan = true := by
  rcases h with hNone | ⟨e, hGet, hStale⟩
  · simp [cacheMiddleware, hNone, runWrapped]
  · simp [cacheMiddleware, hGet, runWrapped, Nat.not_lt.mpr hStale]

/-- Witness for C4 at a concrete stale entry. -/
theorem c4_miss_or_stale_runs_handler_witness :
    (Cache.get cacheW "k" = none ∨
     ∃ e, Cache.get cacheW "k" = some e ∧ 600000 ≤ 700000 - e.timestamp) ∧
    (cacheMiddleware 600000 700000 700000 "k" cacheW handlerW).handlerRan = true :=
  ⟨Or.inr ⟨⟨Payload.data 7, 5⟩, by decide, by decide⟩,
   c4_miss_or_stale_runs_handler 600000 700000 700000 "k" cacheW handlerW
     (Or.inr ⟨⟨Payload.data 7, 5⟩, by decide, by decide⟩)⟩

/-- Claim C5: the cache key is `req.originalUrl` alone, so two info
requests with the same path+query and different credential headers share a
key: after a first request populates the store, a second request within the
TTL carrying any credential headers whatsoever is answered from the entry
the first one cached, without running the handler or the upstream. -/
theorem c5_credentials_not_in_key
    (duration t1 tSend t2 : Nat)
    (getLeagueInfo : ClientConfig → Option Int → Except String Payload)
    (cache : Cache) (req : Request) (s2 sw : Option String)
    (hMiss : Cache.get cache req.originalUrl = none)
    (hFresh : t2 - tSend < duration) :
    ({ req with espnS2 := s2, SWID := sw } : Request).originalUrl = req.originalUrl ∧
    (processInfo duration t2 t2 getLeagueInfo
        (processInfo duration t1 tSend getLeagueInfo cache req).cache
        { req with espnS2 := s2, SWID := sw }).body =
      (processInfo duration t1 tSend getLeagueInfo cache req).body ∧
    (processInfo duration t2 t2 getLeagueInfo
        (processInfo duration t1 tSend getLeagueInfo cache req).cache
        { req with espnS2 := s2, SWID := sw }).handlerRan = false := by
  refine ⟨rfl, ?_, ?_⟩ <;>
    simp [processInfo, cacheMiddleware, runWrapped, hMiss, Cache.get_set_self, hFresh]

/-- Witness for C5: first request without credentials, second request with
both cookie headers set, 5ms later. -/
theorem c5_credentials_not_in_key_witness :
    Cache.get [] reqInfo.originalUrl = none ∧ 5 - 0 < 600000 ∧
    (({ reqInfo with espnS2 := some "s2tok", SWID := some "swid" } : Request).originalUrl =
        reqInfo.originalUrl ∧
     (processInfo 600000 5 5 upstreamOk
        (processInfo 600000 0 0 upstreamOk [] reqInfo).cache
        { reqInfo with espnS2 := some "s2tok", SWID := some "swid" }).body =
      (processInfo 600000 0 0 upstreamOk [] reqInfo).body ∧
     (processInfo 600000 5 5 upstreamOk
        (processInfo 600000 0 0 upstreamOk [] reqInfo).cache
        { reqInfo with espnS2 := some "s2tok", SWID := some "swid" }).handlerRan = false) :=
  ⟨by decide, by decide,
   c5_credentials_not_in_key 600000 0 0 5 upstreamOk [] reqInfo
     (some "s2tok") (some "swid") (by decide) (by decide)⟩

/-- Claim C6: the cache-clear endpoint always succeeds (status 200) and
empties the store unconditionally: afterwards every key reads back absent,
and a subsequent request for any key through the middleware runs the
wrapped handler, however fresh the evicted entry was. -/
theorem c6_clear_empties_store (cache : Cache) (k : String)
    (duration tCheck tSend : Nat) (handler : Unit → Nat × Payload × Bool) :
    (clearCacheEndpoint cache).status = 200 ∧
    (clearCacheEndpoint cache).body = Payload.msgObj "Cache cleared successfully" ∧
    Cache.get (clearCacheEndpoint cache).cache k = none ∧
    (cacheMiddleware duration tCheck tSend k (clearCacheEndpoint cache).cache
        handler).handlerRan = true := by
  refine ⟨rfl, rfl, rfl, ?_⟩
  simp [clearCacheEndpoint, Cache.clear, Cache.get, cacheMiddleware, runWrapped]

/-- Claim C7: on a miss or stale entry, the body the handler writes is
stored under the request key with `timestamp` equal to the clock at send
time, replacing outright any prior entry for that key, and the very same
body and status are what the client receives. -/
theorem c7_miss_captures_payload
    (duration tCheck tSend : Nat) (key : String) (cache : Cache)
    (handler : Unit → Nat × Payload × Bool) (s : Nat) (b : Payload) (u : Bool)
    (hMiss : Cache.get cache key = none ∨
             ∃ e, Cache.get cache key = some e ∧ duration ≤ tCheck - e.timestamp)
    (hH : handler () = (s, b, u)) :
    (cacheMiddleware duration tCheck tSend key cache handler).cache =
      Cache.set cache key ⟨b, tSend⟩ ∧
    Cache.get (cacheMiddleware duration tCheck tSend key cache handler).cache key =
      some ⟨b, tSend⟩ ∧
    (cacheMiddleware duration tCheck tSend key cache handler).body = b ∧
    (cacheMiddleware duration tCheck tSend key cache handler).status = s := by
  rcases hMiss with hNone | ⟨e, hGet, hStale⟩
  · simp [cacheMiddleware, hNone, runWrapped, hH, Cache.get_set_self]
  · simp [cacheMiddleware, hGet, runWrapped, hH, Cache.get_set_self,
      Nat.not_lt.mpr hStale]

/-- Witness for C7: a concrete miss on a store that already holds a stale
entry for the key, showing the replacement write. -/
theorem c7_miss_captures_payload_witness :
    (Cache.get cacheW "k" = none ∨
     ∃ e, Cache.get cacheW "k" = some e ∧ 600000 ≤ 700000 - e.timestamp) ∧
    handlerW () = (200, Payload.data 99, true) ∧
    ((cacheMiddleware 600000 700000 700001 "k" cacheW handlerW).cache =
       Cache.set cacheW "k" ⟨Payload.data 99, 700001⟩ ∧
     Cache.get (cacheMiddleware 600000 700000 700001 "k" cacheW handlerW).cache "k" =
       some ⟨Payload.data 99, 700001⟩ ∧
     (cacheMiddleware 600000 700000 700001 "k" cacheW handlerW).body = Payload.data 99 ∧
     (cacheMiddleware 600000 700000 700001 "k" cacheW handlerW).status = 200) :=
  ⟨Or.inr ⟨⟨Payload.data 7, 5⟩, by decide, by decide⟩, by decide,
   c7_miss_captures_payload 600000 700000 700001 "k" cacheW handlerW
     200 (Payload.data 99) true
     (Or.inr ⟨⟨Payload.data 7, 5⟩, by decide, by decide⟩) (by decide)⟩

/-- Claim C8: the health endpoint never fails: it responds 200 with the
status string and the current time, leaves the cache exactly as it was, and
never invokes the upstream client. -/
theorem c8_health_is_pure (now : Nat) (cache : Cache) :
    (healthEndpoint now cache).status = 200 ∧
    (healthEndpoint now cache).body = Payload.healthObj "ok" now ∧
    (healthEndpoint now cache).cache = cache ∧
    (healthEndpoint now cache).upstreamInvoked = false :=
  ⟨rfl, rfl, rfl, rfl⟩

/-- Claim C9: `createClient` forwards the credential cookies only when both
are supplied: with exactly one of the two headers present, the resulting
config carries neither credential, so the request proceeds as a public-data
request. -/
theorem c9_single_credential_dropped (leagueId : String) (s2 sw : Option String)
    (h : (s2 ≠ none ∧ sw = none) ∨ (s2 = none ∧ sw ≠ none)) :
    (createClient leagueId s2 sw).espnS2 = none ∧
    (createClient leagueId s2 sw).SWID = none := by
  rcases h with ⟨_, hsw⟩ | ⟨hs2, _⟩
  · subst hsw; simp [createClient, truthy]
  · subst hs2; simp [createClient, truthy]

/-- Witness for C9: only the `espnS2` header supplied. -/
theorem c9_single_credential_dropped_witness :
    ((some "s2tok" ≠ (none : Option String) ∧ (none : Option String) = none) ∨
     (some "s2tok" = (none : Option String) ∧ (none : Option String) ≠ none)) ∧
    ((createClient "1" (some "s2tok") none).espnS2 = none ∧
     (createClient "1" (some "s2tok") none).SWID = none) :=
  ⟨Or.inl ⟨by decide, rfl⟩,
   c9_single_credential_dropped "1" (some "s2tok") none (Or.inl ⟨by decide, rfl⟩)⟩

/-- Claim C10: serving a fresh hit leaves the store untouched: the whole
cache after the exchange is the cache before it, so no entry is added,
removed or overwritten, and the hit entry keeps its original `timestamp`
(freshness is never refreshed by a read). -/
theorem c10_fresh_hit_leaves_cache_unchanged
    (duration tCheck tSend : Nat) (key : String) (cache : Cache)
    (handler : Unit → Nat × Payload × Bool) (e : CacheEntry)
    (hGet : Cache.get cache key = some e)
    (hFresh : tCheck - e.timestamp < duration) :
    (cacheMiddleware duration tCheck tSend key cache handler).cache = cache ∧
    Cache.get (cacheMiddleware duration tCheck tSend key cache handler).cache key =
      some e := by
  constructor <;> simp [cacheMiddleware, hGet, hFresh]

/-- Witness for C10 at a concrete fresh hit. -/
theorem c10_fresh_hit_leaves_cache_unchanged_witness :
    Cache.get cacheW "k" = some ⟨Payload.data 7, 5⟩ ∧ 10 - 5 < 600000 ∧
    ((cacheMiddleware 600000 10 10 "k" cacheW handlerW).cache = cacheW ∧
     Cache.get (cacheMiddleware 600000 10 10 "k" cacheW handlerW).cache "k" =
       some ⟨Payload.data 7, 5⟩) :=
  ⟨by decide, by decide,
   c10_fresh_hit_leaves_cache_unchanged 600000 10 10 "k" cacheW handlerW
     ⟨Payload.data 7, 5⟩ (by decide) (by decide)⟩
